import Mathlib

/-!
# Verification of the MCP aggregator core

Shallow embedding of the aggregator's core
(`src/orchestrator/mcp/aggregator/{controller,client,catalog,server,merge}.py`
and `src/orchestrator/transport/stdio.py`) and proofs of the spec claims.

JSON values are modelled by the inductive `J`; Python dicts are modelled as
insertion-ordered association lists (`List (String × α)`), matching CPython's
ordered-dict semantics.  Fallible operations are modelled with `Except`/`Option`.
-/

/-- Generic JSON value, as produced by `json.loads` / consumed by `json.dumps`. -/
inductive J where
  | null
  | bool (b : Bool)
  | num (n : Int)
  | str (s : String)
  | arr (elems : List J)
  | obj (fields : List (String × J))
deriving Repr, Inhabited

/-- A Python dict with string keys, in insertion order. -/
abbrev Dict (α : Type) : Type := List (String × α)

/-- Python `d.get(k)`: first (and, by dict invariant, only) binding of `k`. -/
def dictGet {α : Type} : Dict α → String → Option α
  | [], _ => none
  | (k, v) :: rest, key => if k = key then some v else dictGet rest key

/-- Python `d[k] = v`: replace in place if the key exists (keeping its
position, as CPython dicts do), else append at the end. -/
def dictSet {α : Type} : Dict α → String → α → Dict α
  | [], key, v => [(key, v)]
  | (k, w) :: rest, key, v =>
      if k = key then (k, v) :: rest else (k, w) :: dictSet rest key v

/-- Python `k in d`. -/
def hasKey {α : Type} (d : Dict α) (k : String) : Bool :=
  (dictGet d k).isSome

/-- `j.get(k)` on a JSON value: field lookup on objects.  (On non-dict values
the Python code would raise `AttributeError`; every such call in the modelled
code is guarded by `isinstance` checks or hit only with dict-shaped data, so we
model the lookup as returning nothing.) -/
def J.get (j : J) (k : String) : Option J :=
  match j with
  | J.obj fs => dictGet fs k
  | _ => none

@[simp] theorem dictGet_nil {α : Type} (k : String) : dictGet ([] : Dict α) k = none := rfl

@[simp] theorem dictGet_cons {α : Type} (k key : String) (v : α) (rest : Dict α) :
    dictGet ((k, v) :: rest) key = if k = key then some v else dictGet rest key := rfl

@[simp] theorem dictSet_nil {α : Type} (key : String) (v : α) :
    dictSet ([] : Dict α) key v = [(key, v)] := rfl

@[simp] theorem dictSet_cons {α : Type} (k key : String) (w v : α) (rest : Dict α) :
    dictSet ((k, w) :: rest) key v
      = if k = key then (k, v) :: rest else (k, w) :: dictSet rest key v := rfl

/-- Looking up the key just set yields the new value. -/
theorem dictGet_dictSet_self {α : Type} (d : Dict α) (k : String) (v : α) :
    dictGet (dictSet d k v) k = some v := by
  induction d with
  | nil => simp
  | cons hd tl ih =>
      obtain ⟨k', w⟩ := hd
      by_cases h : k' = k
      · subst h; simp
      · simp [h, ih]

/-- Setting one key does not change lookups of another. -/
theorem dictGet_dictSet_ne {α : Type} (d : Dict α) (k k' : String) (v : α)
    (h : k ≠ k') : dictGet (dictSet d k v) k' = dictGet d k' := by
  induction d with
  | nil => simp [h]
  | cons hd tl ih =>
      obtain ⟨k'', w⟩ := hd
      by_cases h2 : k'' = k
      · subst h2; simp [h]
      · simp [h2, ih]

/-- The key list after `dictSet` on a fresh key is the old key list plus the
new key at the end. -/
theorem dictSet_fresh_append {α : Type} (d : Dict α) (k : String) (v : α)
    (h : dictGet d k = none) : dictSet d k v = d ++ [(k, v)] := by
  induction d with
  | nil => simp
  | cons hd tl ih =>
      obtain ⟨k', w⟩ := hd
      by_cases h2 : k' = k
      · subst h2; simp at h
      · simp [h2] at h ⊢
        exact ih h

/-- Keys of a dict. -/
def dictKeys {α : Type} (d : Dict α) : List String := d.map (·.1)

theorem dictGet_eq_none_iff {α : Type} (d : Dict α) (k : String) :
    dictGet d k = none ↔ k ∉ dictKeys d := by
  induction d with
  | nil => simp [dictKeys]
  | cons hd tl ih =>
      obtain ⟨k', v⟩ := hd
      by_cases h : k' = k
      · subst h; simp [dictKeys]
      · simp [dictKeys, h, Ne.symm h] at ih ⊢
        exact ih

/-- `dictSet` preserves the key set up to possibly appending the new key, and
in particular preserves `Nodup` of the keys. -/
theorem dictKeys_dictSet {α : Type} (d : Dict α) (k : String) (v : α) :
    dictKeys (dictSet d k v) = if k ∈ dictKeys d then dictKeys d else dictKeys d ++ [k] := by
  induction d with
  | nil => simp [dictKeys]
  | cons hd tl ih =>
      obtain ⟨k', w⟩ := hd
      by_cases h : k' = k
      · subst h; simp [dictKeys]
      · have hne : ¬ (k = k') := fun hh => h hh.symm
        simp only [dictKeys, dictSet_cons, if_neg h, List.map_cons, List.mem_cons, hne,
          false_or] at ih ⊢
        rw [ih]
        by_cases hm : k ∈ List.map (fun x => x.1) tl <;> simp [hm]

theorem dictKeys_dictSet_nodup {α : Type} (d : Dict α) (k : String) (v : α)
    (h : (dictKeys d).Nodup) : (dictKeys (dictSet d k v)).Nodup := by
  rw [dictKeys_dictSet]
  by_cases hm : k ∈ dictKeys d
  · simpa [hm]
  · simpa [hm, List.nodup_append] using h

/-! ## Name sanitization (`AggregationController._sanitize`) -/

/-- One character of Python `name.replace("-", "_")`. -/
def replChar (c : Char) : Char := if c = '-' then '_' else c

/-- `AggregationController._sanitize`: `name.replace("-", "_")`. -/
def sanitize (s : String) : String := String.mk (s.data.map replChar)

/-! ## Upstream session (`_FallbackUpstreamClient`)

The session's mutable state is `next_id`, the `pending` table (modelled by its
key set, in insertion order), the `closed` flag and the reader task.  A call to
`send_request` is modelled as a state transition that also records the ordered
trace of externally visible events: registering the waiter in `pending`,
writing + draining the framed request bytes, removing the waiter on timeout,
the backoff sleep, and delivery of the reply.  Which attempts time out is an
input (`timesOut n` = "the n-th attempt's `asyncio.wait_for` raises
`TimeoutError`"). -/

structure SessionState where
  nextId : Nat
  pending : List Nat
  closed : Bool
  readerCancelled : Bool
deriving Repr, DecidableEq

inductive Ev where
  | register (i : Nat)
  | write (i : Nat)
  | removeWaiter (i : Nat)
  | sleep (ms : Nat)
  | deliver (i : Nat)
deriving Repr, DecidableEq

/-- `min(0.1 * (2 ** (attempt - 1)), 1.0)` in milliseconds. -/
def backoffMs (attempt : Nat) : Nat := min (100 * 2 ^ (attempt - 1)) 1000

/-- `self._pending[req_id] = fut` (dict key insert; key order as in CPython). -/
def insertPending (pending : List Nat) (i : Nat) : List Nat :=
  if pending.contains i then pending else pending ++ [i]

/-- `self._pending.pop(req_id, None)` restricted to the key set. -/
def removePending : List Nat → Nat → List Nat
  | [], _ => []
  | n :: rest, i => if n = i then rest else n :: removePending rest i

/-- The retry loop of `_FallbackUpstreamClient.send_request`, lines 70-92.
`reqId` is fixed before the loop (the code allocates the id once, outside the
loop).  Returns the event trace, the final pending key set, and whether a
reply was delivered (`false` = `TimeoutError` propagates to the caller).
`fuel` is `retries + 1 - attempt`, enough for every reachable iteration. -/
def sendLoop (reqId retries : Nat) (timesOut : Nat → Bool) :
    Nat → Nat → List Nat → List Ev × List Nat × Bool
  | 0, _, pending => ([], pending, false)
  | _fuel + 1, attempt, pending =>
    let p1 := insertPending pending reqId
    if timesOut (attempt + 1) then
      let p2 := removePending p1 reqId
      if retries < attempt + 1 then
        ([Ev.register reqId, Ev.write reqId, Ev.removeWaiter reqId], p2, false)
      else
        let rest := sendLoop reqId retries timesOut _fuel (attempt + 1) p2
        (Ev.register reqId :: Ev.write reqId :: Ev.removeWaiter reqId ::
          Ev.sleep (backoffMs (attempt + 1)) :: rest.1, rest.2)
    else
      ([Ev.register reqId, Ev.write reqId, Ev.deliver reqId], removePending p1 reqId, true)

/-- `_FallbackUpstreamClient.send_request`: allocates `req_id = self._next_id`,
increments `next_id`, then runs the write/wait/retry loop.  Note that the code
performs no check of `self._closed` here. -/
def sendRequest (s : SessionState) (retries : Nat) (timesOut : Nat → Bool) :
    SessionState × List Ev × Bool :=
  let reqId := s.nextId
  let r := sendLoop reqId retries timesOut (retries + 1) 0 s.pending
  ({ s with nextId := s.nextId + 1, pending := r.2.1 }, r.1, r.2.2)

/-- `_FallbackUpstreamClient.close`: sets `_closed`, cancels (and awaits) the
reader task.  The pending table is not touched. -/
def sessionClose (s : SessionState) : SessionState :=
  { s with closed := true, readerCancelled := true }

/-- Ids carried by the `write` events of a trace, in order. -/
def writtenIds (evs : List Ev) : List Nat :=
  evs.filterMap (fun e => match e with | Ev.write i => some i | _ => none)

/-- `true` iff every `write i` event is immediately preceded by `register i`:
the waiter is inserted into `pending` strictly before the bytes go out. -/
def registeredBeforeWritten : List Ev → Bool
  | [] => true
  | Ev.write _ :: _ => false
  | Ev.register i :: Ev.write j :: rest => (i == j) && registeredBeforeWritten rest
  | Ev.register _ :: rest => registeredBeforeWritten rest
  | _ :: rest => registeredBeforeWritten rest

@[simp] theorem writtenIds_nil : writtenIds [] = [] := rfl

@[simp] theorem writtenIds_write (i : Nat) (l : List Ev) :
    writtenIds (Ev.write i :: l) = i :: writtenIds l := rfl

@[simp] theorem writtenIds_register (i : Nat) (l : List Ev) :
    writtenIds (Ev.register i :: l) = writtenIds l := rfl

@[simp] theorem writtenIds_removeWaiter (i : Nat) (l : List Ev) :
    writtenIds (Ev.removeWaiter i :: l) = writtenIds l := rfl

@[simp] theorem writtenIds_sleep (ms : Nat) (l : List Ev) :
    writtenIds (Ev.sleep ms :: l) = writtenIds l := rfl

@[simp] theorem writtenIds_deliver (i : Nat) (l : List Ev) :
    writtenIds (Ev.deliver i :: l) = writtenIds l := rfl

@[simp] theorem registeredBeforeWritten_nil : registeredBeforeWritten [] = true := rfl

theorem registeredBeforeWritten_reg_write (i j : Nat) (l : List Ev) :
    registeredBeforeWritten (Ev.register i :: Ev.write j :: l)
      = ((i == j) && registeredBeforeWritten l) := rfl

theorem registeredBeforeWritten_removeWaiter (i : Nat) (l : List Ev) :
    registeredBeforeWritten (Ev.removeWaiter i :: l) = registeredBeforeWritten l := rfl

theorem registeredBeforeWritten_sleep (ms : Nat) (l : List Ev) :
    registeredBeforeWritten (Ev.sleep ms :: l) = registeredBeforeWritten l := rfl

theorem registeredBeforeWritten_deliver (i : Nat) (l : List Ev) :
    registeredBeforeWritten (Ev.deliver i :: l) = registeredBeforeWritten l := rfl

/-- Every attempt of the send loop writes under the id allocated before the
loop: retries never pick a fresh id. -/
theorem sendLoop_written_eq (reqId retries : Nat) (timesOut : Nat → Bool) :
    ∀ (fuel attempt : Nat) (pending : List Nat),
      ∀ i ∈ writtenIds (sendLoop reqId retries timesOut fuel attempt pending).1, i = reqId := by
  intro fuel
  induction fuel with
  | zero => intro attempt pending i hi; simp [sendLoop] at hi
  | succ n ih =>
      intro attempt pending i hi
      rw [sendLoop] at hi
      by_cases hT : timesOut (attempt + 1)
      · by_cases hR : retries < attempt + 1
        · simp [hT, hR] at hi; exact hi
        · simp [hT, hR] at hi
          rcases hi with hi | hi
          · exact hi
          · exact ih (attempt + 1) _ i hi
      · simp [hT] at hi; exact hi

/-- The send loop registers each waiter immediately before writing. -/
theorem sendLoop_registeredBeforeWritten (reqId retries : Nat) (timesOut : Nat → Bool) :
    ∀ (fuel attempt : Nat) (pending : List Nat),
      registeredBeforeWritten (sendLoop reqId retries timesOut fuel attempt pending).1 = true := by
  intro fuel
  induction fuel with
  | zero => intro attempt pending; simp [sendLoop]
  | succ n ih =>
      intro attempt pending
      rw [sendLoop]
      by_cases hT : timesOut (attempt + 1)
      · by_cases hR : retries < attempt + 1
        · simp [hT, hR, registeredBeforeWritten_reg_write,
            registeredBeforeWritten_removeWaiter]
        · simp only [hT, hR, if_true, if_false, if_neg hR]
          rw [registeredBeforeWritten_reg_write, registeredBeforeWritten_removeWaiter,
            registeredBeforeWritten_sleep, ih (attempt + 1) _]
          simp
      · simp only [hT, if_false, Bool.false_eq_true]
        rw [registeredBeforeWritten_reg_write, registeredBeforeWritten_deliver]
        simp

/-- The send loop always writes at least once (fuel is `retries + 1 ≥ 1`). -/
theorem sendLoop_writes (reqId retries : Nat) (timesOut : Nat → Bool)
    (fuel attempt : Nat) (pending : List Nat) :
    writtenIds (sendLoop reqId retries timesOut (fuel + 1) attempt pending).1 ≠ [] := by
  rw [sendLoop]
  by_cases hT : timesOut (attempt + 1)
  · by_cases hR : retries < attempt + 1 <;> simp [hT, hR]
  · simp [hT]

/-- C3 (counterexample): in scenario S5 (`next_id = 1`, `retries = 1`, the
first attempt times out), the request bytes written on the wire carry ids
`[1, 1]` — the retry reuses the timed-out id — and not `[1, 2]` as the claim
states. -/
theorem C3_counterexample :
    writtenIds (sendRequest ⟨1, [], false, false⟩ 1 (fun a => a == 1)).2.1 = [1, 1] ∧
    writtenIds (sendRequest ⟨1, [], false, false⟩ 1 (fun a => a == 1)).2.1 ≠ [1, 2] := by
  decide

/-- C3 (amended): on a timeout with attempts ≤ retries the session removes the
timed-out waiter, sleeps `min(100ms · 2^(attempts-1), 1s)`, and retransmits the
request under the SAME request id — the id is allocated once per `send_request`
call, not per attempt (so a late reply to that id arriving after the
retransmission is delivered to the retry's waiter rather than dropped).  In S5
the full event trace is register 1, write 1, remove waiter 1, sleep 100ms,
register 1, write 1, deliver 1; in general every write of a send call carries
the id allocated at its start. -/
theorem C3_timeout_retry :
    (sendRequest ⟨1, [], false, false⟩ 1 (fun a => a == 1)).2.1
      = [Ev.register 1, Ev.write 1, Ev.removeWaiter 1, Ev.sleep 100,
         Ev.register 1, Ev.write 1, Ev.deliver 1] ∧
    ∀ (s : SessionState) (retries : Nat) (timesOut : Nat → Bool),
      ∀ i ∈ writtenIds (sendRequest s retries timesOut).2.1, i = s.nextId := by
  constructor
  · decide
  · intro s retries timesOut i hi
    exact sendLoop_written_eq s.nextId retries timesOut (retries + 1) 0 s.pending i hi

/-- Witness for C3 (amended), at the S5 input: the id written by the retry is
the id allocated at the start of the send call. -/
theorem C3_timeout_retry_witness :
    (1 : Nat) = (⟨1, [], false, false⟩ : SessionState).nextId :=
  C3_timeout_retry.2 ⟨1, [], false, false⟩ 1 (fun a => a == 1) 1 (by decide)

/-- C4 (counterexample): with a waiter for id 7 pending, `close()` leaves the
pending table holding id 7 (no waiter is completed with a "session closed"
error), and a subsequent `send` on the closed session still writes its request
(id 5) to the transport instead of failing synchronously. -/
theorem C4_counterexample :
    (sessionClose ⟨5, [7], false, false⟩).pending = [7] ∧
    writtenIds (sendRequest (sessionClose ⟨5, [7], false, false⟩) 0 (fun _ => false)).2.1
      = [5] ∧
    ¬ ((sessionClose ⟨5, [7], false, false⟩).pending = [] ∨
       writtenIds (sendRequest (sessionClose ⟨5, [7], false, false⟩) 0 (fun _ => false)).2.1
         = []) := by
  decide

/-- C4 (amended): `close()` marks the session closed and cancels the reader
task, and is idempotent; but it leaves the pending table untouched (no waiter
is completed with a "session closed" error), and a subsequent `send` on the
closed session is not rejected: it still allocates an id and writes the request
to the transport, failing only through its own timeout. -/
theorem C4_close :
    ∀ (s : SessionState) (retries : Nat) (timesOut : Nat → Bool),
      (sessionClose s).pending = s.pending ∧
      (sessionClose s).closed = true ∧
      (sessionClose s).readerCancelled = true ∧
      sessionClose (sessionClose s) = sessionClose s ∧
      writtenIds (sendRequest (sessionClose s) retries timesOut).2.1 ≠ [] := by
  intro s retries timesOut
  refine ⟨rfl, rfl, rfl, rfl, ?_⟩
  exact sendLoop_writes s.nextId retries timesOut retries 0 s.pending

/-- C8 (confirmed): `next_id` strictly increases across `send_request` calls
(each call allocates exactly one fresh id, never reused by a later fresh
allocation), and in the event trace of every send, each write of request bytes
is immediately preceded by the registration of the waiter for that id in the
pending table. -/
theorem C8_send_invariants :
    ∀ (s : SessionState) (retries : Nat) (timesOut : Nat → Bool),
      (sendRequest s retries timesOut).1.nextId = s.nextId + 1 ∧
      s.nextId < (sendRequest s retries timesOut).1.nextId ∧
      registeredBeforeWritten (sendRequest s retries timesOut).2.1 = true := by
  intro s retries timesOut
  refine ⟨rfl, by simp [sendRequest], ?_⟩
  exact sendLoop_registeredBeforeWritten s.nextId retries timesOut (retries + 1) 0 s.pending

/-! ## Frame decoding

`StdioJsonRpcFramer._read_message_blocking` (transport/stdio.py) and the
upstream session's `_FallbackUpstreamClient._read_loop` (client.py) both
decode `Content-Length`-framed JSON bodies.  We model the stream at frame
granularity: the input is the list of well-framed body strings, and the JSON
parser (`json.loads`, an external library call) is an oracle
`parse : String → Option J` (`none` = the parse raises).  The framer's
`try`/`except` catches ONLY `OSError`, so a JSON parse failure
(`json.JSONDecodeError`, a `ValueError`) propagates; the client's read loop
wraps `json.loads` in `try`/`except Exception` and continues. -/

inductive FramerEnd where
  | eof
  | raised
deriving Repr, DecidableEq

/-- The downstream message iteration (`StdioJsonRpcFramer.iter_messages` over
`_read_message_blocking`): yields decoded messages until EOF; a body whose
parse fails raises out of `_read_message_blocking` (only `OSError` is caught
there) and ends the iteration with an exception. -/
def framerIter (parse : String → Option J) : List String → List J × FramerEnd
  | [] => ([], FramerEnd.eof)
  | body :: rest =>
    match parse body with
    | some j =>
        let r := framerIter parse rest
        (j :: r.1, r.2)
    | none => ([], FramerEnd.raised)

/-- `self._pending.pop(req_id, None)` of the reader loop, on the key set;
also reports whether the key was present (a live waiter to resolve). -/
def popPending : List Nat → Int → List Nat × Bool
  | [], _ => ([], false)
  | n :: rest, i =>
      if (n : Int) = i then (rest, true)
      else
        let r := popPending rest i
        (n :: r.1, r.2)

/-- Dispatch of one decoded message in `_read_loop` (client.py lines 115-119):
a message with an `id` and a `result` or `error` member pops the matching
waiter and resolves it with the message.  Returns the new pending key set and
the delivery, if any.  (Messages without a matching int id, without
`result`/`error`, or non-object messages resolve nothing.) -/
def readStep (msg : J) (pending : List Nat) : List Nat × Option (Int × J) :=
  match msg with
  | J.obj fs =>
    match dictGet fs "id" with
    | some (J.num i) =>
        if (dictGet fs "result").isSome || (dictGet fs "error").isSome then
          let p := popPending pending i
          if p.2 then (p.1, some (i, msg)) else (p.1, none)
        else (pending, none)
    | _ => (pending, none)
  | _ => (pending, none)

/-- `_FallbackUpstreamClient._read_loop`: decode each framed body; a parse
failure is skipped (`except Exception: continue`); each decoded message is
dispatched into the pending table via `readStep`.  Returns the final pending
key set and the list of (id, message) deliveries. -/
def readLoopClient (parse : String → Option J) :
    List String → List Nat → List Nat × List (Int × J)
  | [], pending => (pending, [])
  | body :: rest, pending =>
    match parse body with
    | none => readLoopClient parse rest pending
    | some msg =>
        let st := readStep msg pending
        let r := readLoopClient parse rest st.1
        match st.2 with
        | some d => (r.1, d :: r.2)
        | none => r

/-- A tiny concrete stand-in for `json.loads` used by the counterexample: the
body `"bad"` fails to parse, everything else parses. -/
def parseToy (s : String) : Option J :=
  if s = "bad" then none else some (J.str s)

/-- C5 (counterexample): on the framed stream `g1, bad, g2` where `bad` is a
well-framed frame whose body fails to parse as JSON, the downstream stdio
framer's iteration raises (only `OSError` is caught around `json.loads`) and
terminates after yielding one message: the subsequent well-formed frame `g2`
is never yielded, contradicting the claim for the downstream framer. -/
theorem C5_counterexample :
    (framerIter parseToy ["g1", "bad", "g2"]).2 = FramerEnd.raised ∧
    (framerIter parseToy ["g1", "bad", "g2"]).1.length = 1 ∧
    ¬ ((framerIter parseToy ["g1", "bad", "g2"]).2 = FramerEnd.eof ∧
       (framerIter parseToy ["g1", "bad", "g2"]).1.length = 2) := by
  refine ⟨rfl, rfl, ?_⟩
  intro h
  exact absurd h.1 (by decide)

/-- C5 (amended): the UPSTREAM client's reader loop is unaffected by malformed
frames — processing any stream is identical to processing the stream with all
unparseable bodies removed (the frame is dropped and decoding continues) —
whereas the downstream stdio framer propagates the parse failure
(counterexample above). -/
theorem C5_read_loop_skips_malformed :
    ∀ (parse : String → Option J) (frames : List String) (pending : List Nat),
      readLoopClient parse frames pending
        = readLoopClient parse (frames.filter (fun b => (parse b).isSome)) pending := by
  intro parse frames
  induction frames with
  | nil => intro pending; rfl
  | cons body rest ih =>
      intro pending
      cases hj : parse body with
      | none =>
          simp only [readLoopClient, hj, List.filter_cons, Option.isSome_none,
            Bool.false_eq_true, if_false]
          exact ih pending
      | some msg =>
          simp only [readLoopClient, hj, List.filter_cons, Option.isSome_some, if_true]
          rw [ih]

/-! ## Downstream server loop (`MCPAggregatorServer.start_stdio`)

One iteration of the `async for msg in framer.iter_messages()` loop, as a pure
function of the inbound message and of oracles for the two controller calls it
may make (`initialize_capabilities`, which may raise, and `route_request`,
whose exceptions are turned into a `-32002` error by the loop itself).  The
observable effects are the `route_request` invocations, whether
`initialize_capabilities` was invoked, and the frames written to stdout. -/

structure ServerEffects where
  routeCalls : List (Option J × Option J)
  initCapsCalled : Bool
  replies : List J
deriving Repr

/-- Python truthiness of a JSON value. -/
def jFalsy : J → Bool
  | J.null => true
  | J.bool b => !b
  | J.num n => n == 0
  | J.str s => s == ""
  | J.arr l => l.isEmpty
  | J.obj l => l.isEmpty

/-- `msg.get("method") == "initialize"`. -/
def isInitialize (method : Option J) : Bool :=
  match method with
  | some (J.str s) => s == "initialize"
  | _ => false

/-- `make_response` (rpc/jsonrpc.py). -/
def makeResponse (mid : J) (result : J) : J :=
  J.obj [("jsonrpc", J.str "2.0"), ("id", mid), ("result", result)]

/-- The default error used when a routed response has no (truthy) error:
`{"code": -32601, "message": f"Method not found: {method}"}`.  (The f-string
interpolates the raw method value; we render string methods and elide the
repr of non-string ones, which no claim depends on.) -/
def methodNotFound (method : Option J) : J :=
  J.obj [("code", J.num (-32601)),
         ("message", J.str ("Method not found: " ++
           (match method with | some (J.str s) => s | _ => "")))]

/-- The `initialize` branch (server.py lines 60-80): aggregate capabilities via
the controller when present (falling back to the initial capabilities if that
raises), apply cursor-profile shaping, and reply only when the message has an
`id`. -/
def handleInit (hasController : Bool) (serverName : String) (initialCaps : J)
    (profile : Option String) (capsReply : Except String J) (msg : J) : ServerEffects :=
  let caps0 := if hasController then
      (match capsReply with | Except.ok c => c | Except.error _ => initialCaps)
    else initialCaps
  let caps := if profile = some "cursor" then
      J.obj [("tools", (caps0.get "tools").getD (J.obj [])),
             ("prompts", J.obj []), ("resources", J.obj [])]
    else caps0
  let result := J.obj [("capabilities", caps),
    ("serverInfo", J.obj [("name", J.str serverName), ("version", J.str "0.1.0")])]
  { routeCalls := []
    initCapsCalled := hasController
    replies := match msg.get "id" with
      | some mid => [makeResponse mid result]
      | none => [] }

/-- The non-`initialize` branch (server.py lines 81-101): `route_request` is
invoked only when a controller is present AND the message has an `id`; a reply
frame is written only when the message has an `id`. -/
def handleOther (hasController : Bool) (routeReply : Except String (Dict J)) (msg : J) :
    ServerEffects :=
  let doRoute := hasController && (msg.get "id").isSome
  let routed : Option (Dict J) :=
    if doRoute then
      some (match routeReply with
        | Except.ok d => d
        | Except.error e =>
            [("error", J.obj [("code", J.num (-32002)), ("message", J.str e)])])
    else none
  { routeCalls := if doRoute then [(msg.get "method", msg.get "params")] else []
    initCapsCalled := false
    replies :=
      match msg.get "id" with
      | none => []
      | some mid =>
        match routed with
        | some d =>
            if !d.isEmpty && hasKey d "result" then
              [makeResponse mid ((dictGet d "result").getD J.null)]
            else
              [J.obj [("jsonrpc", J.str "2.0"), ("id", mid),
                ("error", match dictGet d "error" with
                  | some e => if jFalsy e then methodNotFound (msg.get "method") else e
                  | none => methodNotFound (msg.get "method"))]]
        | none =>
            [J.obj [("jsonrpc", J.str "2.0"), ("id", mid),
              ("error", methodNotFound (msg.get "method"))]] }

/-- One iteration of the server loop. -/
def handleMessage (hasController : Bool) (serverName : String) (initialCaps : J)
    (profile : Option String) (capsReply : Except String J)
    (routeReply : Except String (Dict J)) (msg : J) : ServerEffects :=
  if isInitialize (msg.get "method") then
    handleInit hasController serverName initialCaps profile capsReply msg
  else
    handleOther hasController routeReply msg

/-- C6 (counterexample): an inbound notification (no `id`) with method
`tools/list`, on a server with a controller, triggers zero `route_request`
calls — not the one call the claim requires (the guard on server.py line 85
requires `msg_id is not None` before dispatching). -/
theorem C6_counterexample :
    (handleMessage true "orchestrator-mcp-aggregator" (J.obj []) none
        (Except.ok (J.obj [])) (Except.ok [("result", J.null)])
        (J.obj [("method", J.str "tools/list"), ("params", J.obj [])])).routeCalls.length = 0 ∧
    (handleMessage true "orchestrator-mcp-aggregator" (J.obj []) none
        (Except.ok (J.obj [])) (Except.ok [("result", J.null)])
        (J.obj [("method", J.str "tools/list"), ("params", J.obj [])])).replies = [] ∧
    ¬ (handleMessage true "orchestrator-mcp-aggregator" (J.obj []) none
        (Except.ok (J.obj [])) (Except.ok [("result", J.null)])
        (J.obj [("method", J.str "tools/list"), ("params", J.obj [])])).routeCalls.length = 1 := by
  refine ⟨rfl, rfl, ?_⟩
  intro h
  simp [handleMessage, isInitialize, handleOther, J.get] at h

/-- C6 (amended): an inbound framed message without an `id` whose method is
not `initialize` is ignored by the server loop: it is NOT dispatched to the
controller (no `route_request` call is made) and no reply frame is written. -/
theorem C6_notifications_ignored
    (hasController : Bool) (serverName : String) (initialCaps : J)
    (profile : Option String) (capsReply : Except String J)
    (routeReply : Except String (Dict J)) (msg : J)
    (hid : msg.get "id" = none)
    (hm : isInitialize (msg.get "method") = false) :
    (handleMessage hasController serverName initialCaps profile capsReply
        routeReply msg).routeCalls = [] ∧
    (handleMessage hasController serverName initialCaps profile capsReply
        routeReply msg).replies = [] := by
  simp [handleMessage, hm, handleOther, hid]

/-- Witness for C6 (amended) at a concrete notification. -/
theorem C6_notifications_ignored_witness :
    (handleMessage true "s" (J.obj []) none (Except.ok (J.obj []))
        (Except.ok [("result", J.null)])
        (J.obj [("method", J.str "notifications/cancelled")])).routeCalls = [] ∧
    (handleMessage true "s" (J.obj []) none (Except.ok (J.obj []))
        (Except.ok [("result", J.null)])
        (J.obj [("method", J.str "notifications/cancelled")])).replies = [] :=
  C6_notifications_ignored true "s" (J.obj []) none (Except.ok (J.obj []))
    (Except.ok [("result", J.null)])
    (J.obj [("method", J.str "notifications/cancelled")]) rfl rfl

/-! ## Catalog (`catalog.py`) and aggregation controller (`controller.py`)

The controller is modelled as a pure function of its state (round-robin
counter, per-client upstream configs, cached catalog, and the legacy flag
`bool(self._up_procs)`), of the environment filter variables, and of an oracle
`UpOracle` giving each upstream session's reply to each `send_request` it
performs (`Except.error` = the await raised).  Besides the response envelope,
the model returns the ordered list of `send_request` invocations actually
made, so that routing claims ("sent only to ...") are expressible. -/

structure UpstreamServer where
  name : String
  command : List String
  env : Dict String
  include_tools : Option (List String)
  exclude_tools : Option (List String)
deriving Repr

structure CatalogEntry where
  item : J
  upstream : String
  original_name : String
deriving Repr

structure PEntry where
  item : J
  upstream : String
deriving Repr

/-- `Catalog` (catalog.py): three insertion-ordered maps. -/
structure Catalog where
  tools : Dict CatalogEntry
  prompts : Dict PEntry
  resources : Dict PEntry
deriving Repr

/-- `Catalog.set_tool`. -/
def Catalog.set_tool (c : Catalog) (presented : String) (item : J)
    (upstream original : String) : Catalog :=
  { c with tools := dictSet c.tools presented ⟨item, upstream, original⟩ }

/-- `Catalog.get_tool_upstream`. -/
def Catalog.get_tool_upstream (c : Catalog) (presented : String) : Option String :=
  (dictGet c.tools presented).map (fun e => e.upstream)

/-- `Catalog.get_tool_original`. -/
def Catalog.get_tool_original (c : Catalog) (presented : String) : Option String :=
  (dictGet c.tools presented).map (fun e => e.original_name)

/-- An upstream session's reply envelope: the awaited `send_request` either
raises (`Except.error`, message text) or returns a response dict. -/
abbrev Reply := Except String (Dict J)

/-- `lst = r.get("result") or []` followed by `isinstance(lst, list)`
(controller.py lines 134-135 and 216-218): the items iterated from a fan-out
reply.  A missing or falsy `result` yields `[]`; a truthy non-list `result`
is skipped entirely — both contribute no items. -/
def getResultList (r : Dict J) : List J :=
  match dictGet r "result" with
  | some (J.arr xs) => xs
  | _ => []

/-- Per-upstream include/exclude filtering on the sanitized original name
(controller.py lines 145-156). -/
def passesFilters (cfg : UpstreamServer) (norm : String) : Bool :=
  (match cfg.include_tools with
   | none => true
   | some inc => (inc.map sanitize).contains norm) &&
  (match cfg.exclude_tools with
   | none => true
   | some exc => !((exc.map sanitize).contains norm))

/-- The presented descriptor (controller.py lines 157-163): a copy of the
original item with `name` replaced by the presented name and a non-empty
string `description` prefixed with `"[<upstream>] "` (the raw upstream name,
not sanitized). -/
def presentItem (upstreamName : String) (fs : Dict J) (presented : String) : J :=
  let fs1 := dictSet fs "name" (J.str presented)
  match dictGet fs1 "description" with
  | some (J.str d) =>
      if d = "" then J.obj fs1
      else J.obj (dictSet fs1 "description" (J.str ("[" ++ upstreamName ++ "] " ++ d)))
  | _ => J.obj fs1

/-- One tool item's contribution to the catalog (controller.py lines 136-164):
`none` when the item is skipped (no string `name`, or filtered out).  (A
non-dict item would raise inside `route_request`'s `try`; such items do not
occur in the modelled runs and are treated as skipped.) -/
def toolEntry (cfg : UpstreamServer) (item : J) : Option (String × CatalogEntry) :=
  match item with
  | J.obj fs =>
    match dictGet fs "name" with
    | some (J.str orig) =>
        if passesFilters cfg (sanitize orig) then
          some (sanitize cfg.name ++ "_" ++ sanitize orig,
                ⟨presentItem cfg.name fs (sanitize cfg.name ++ "_" ++ sanitize orig),
                 cfg.name, orig⟩)
        else none
    | _ => none
  | _ => none

/-- The inner per-upstream loop of `_build_catalog`'s tools section:
`cat.set_tool(...)` for each surviving item, left to right. -/
def catalogAddTools (cfg : UpstreamServer) : List J → Dict CatalogEntry → Dict CatalogEntry
  | [], acc => acc
  | item :: rest, acc =>
    match toolEntry cfg item with
    | some kv => catalogAddTools cfg rest (dictSet acc kv.1 kv.2)
    | none => catalogAddTools cfg rest acc

/-- The tools section of `_build_catalog` (lines 126-164), over the
(client config, tools/list reply) pairs in configuration order. -/
def buildToolsPairs : List (UpstreamServer × Reply) → Dict CatalogEntry → Dict CatalogEntry
  | [], acc => acc
  | cr :: rest, acc =>
    match cr.2 with
    | Except.error _ => buildToolsPairs rest acc
    | Except.ok r => buildToolsPairs rest (catalogAddTools cr.1 (getResultList r) acc)

def buildTools (clients : List UpstreamServer) (toolReplies : List Reply) :
    Dict CatalogEntry :=
  buildToolsPairs (clients.zip toolReplies) []

/-- The prompts/resources sections of `_build_catalog` (lines 165-198). -/
def buildNamed (clients : List UpstreamServer) (replies : List Reply) : Dict PEntry :=
  (clients.zip replies).foldl (fun acc cr =>
    match cr.2 with
    | Except.error _ => acc
    | Except.ok r =>
        (getResultList r).foldl (fun acc item =>
          match item with
          | J.obj fs =>
            match dictGet fs "name" with
            | some (J.str n) => dictSet acc n ⟨J.obj fs, cr.1.name⟩
            | _ => acc
          | _ => acc) acc) []

/-- `_build_catalog` (lines 123-200) given the three fan-outs' replies. -/
def buildCatalogFrom (clients : List UpstreamServer)
    (toolReplies promptReplies resourceReplies : List Reply) : Catalog :=
  { tools := buildTools clients toolReplies
    prompts := buildNamed clients promptReplies
    resources := buildNamed clients resourceReplies }

/-- `merge_named_lists` (merge.py lines 42-51): union by `name` across the
lists, first occurrence wins, with the `seen` set threaded through.  One list: -/
def mergeNamedOne (seen : List String) : List J → List J × List String
  | [] => ([], seen)
  | item :: rest =>
    match item with
    | J.obj fs =>
      match dictGet fs "name" with
      | some (J.str n) =>
          if seen.contains n then mergeNamedOne seen rest
          else
            let r := mergeNamedOne (n :: seen) rest
            (J.obj fs :: r.1, r.2)
      | _ => mergeNamedOne seen rest
    | _ => mergeNamedOne seen rest

def mergeNamedListsGo (seen : List String) : List (List J) → List J
  | [] => []
  | lst :: rest =>
    let r := mergeNamedOne seen lst
    r.1 ++ mergeNamedListsGo r.2 rest

/-- `merge_named_lists` over the collected `ok` lists. -/
def mergeNamedLists (lists : List (List J)) : List J := mergeNamedListsGo [] lists

/-- `ORCH_INCLUDE_TOOLS` / `ORCH_EXCLUDE_TOOLS` (`os.environ.get`: `none` when
unset). -/
structure EnvFilters where
  includeTools : Option String
  excludeTools : Option String

/-- Python truthiness of `os.environ.get(...)`: unset or empty is falsy. -/
def truthyEnv : Option String → Bool
  | none => false
  | some s => s != ""

/-- Python `s.split(",")` (note `"".split(",") == [""]`). -/
def splitCommaChars : List Char → List Char → List String
  | [], acc => [String.mk acc.reverse]
  | c :: rest, acc =>
      if c = ',' then String.mk acc.reverse :: splitCommaChars rest []
      else splitCommaChars rest (c :: acc)

def splitComma (s : String) : List String := splitCommaChars s.data []

/-- `{"code": c, "message": m}` as built by controller.py. -/
def errObj (code : Int) (message : String) : J :=
  J.obj [("code", J.num code), ("message", J.str message)]

/-- Global include/exclude filtering for `tools/call` (controller.py lines
72-84): the env values are split on "," and matched against the presented
name; include (when truthy) is checked first.  Returns the error object when
the call is disallowed, `none` when routing proceeds. -/
def toolsCallFilter (env : EnvFilters) (method : String) (params : Option J) : Option J :=
  if (method == "tools/call") && (truthyEnv env.includeTools || truthyEnv env.excludeTools) then
    match params with
    | some (J.obj fs) =>
      match dictGet fs "name" with
      | some (J.str name) =>
          if truthyEnv env.includeTools
              && !((splitComma (env.includeTools.getD "")).contains name) then
            some (errObj (-32601) ("Tool not allowed: " ++ name))
          else if truthyEnv env.excludeTools
              && (splitComma (env.excludeTools.getD "")).contains name then
            some (errObj (-32601) ("Tool excluded: " ++ name))
          else none
      | _ => none
    | _ => none
  else none

/-- The simplified response of `route_request`: exactly one of
`{"result": ...}` (line 117) or `{"error": ...}` (lines 71, 82, 84, 114, 116). -/
inductive RpcResponse where
  | result (j : J)
  | error (e : J)
deriving Repr

/-- The dict literally returned by `route_request` for each envelope. -/
def responseDict : RpcResponse → Dict J
  | RpcResponse.result j => [("result", j)]
  | RpcResponse.error e => [("error", e)]

/-- Lines 112-117: a session-level exception becomes `-32001`; a reply dict
with an `"error"` key is propagated verbatim; otherwise `resp.get("result")`. -/
def envelope : Reply → RpcResponse
  | Except.error e =>
      RpcResponse.error (errObj (-32001) ("Upstream request failed: " ++ e))
  | Except.ok r =>
    match dictGet r "error" with
    | some e => RpcResponse.error e
    | none => RpcResponse.result ((dictGet r "result").getD J.null)

/-- Controller state: `legacy` is `bool(self._up_procs)` (the process-based
construction path of `__init__`), `clients` the per-client upstream configs in
configuration order, `rr` the round-robin counter, `catalog` the cached
catalog. -/
structure ControllerState where
  legacy : Bool
  clients : List UpstreamServer
  rr : Nat
  catalog : Option Catalog
deriving Repr

/-- A `send_request` made by the controller: client index, method, params. -/
structure SendRec where
  client : Nat
  method : String
  params : Option J
deriving Repr

/-- Upstream behaviour oracle: reply of client `i` to (method, params). -/
abbrev UpOracle := Nat → String → Option J → Reply

def fanoutSends (n : Nat) (method : String) : List SendRec :=
  (List.range n).map (fun i => ⟨i, method, none⟩)

def fanoutReplies (n : Nat) (upReply : UpOracle) (method : String) : List Reply :=
  (List.range n).map (fun i => upReply i method none)

/-- The three fan-outs of `_build_catalog`, driven by the oracle. -/
def buildCatalogOracle (clients : List UpstreamServer) (upReply : UpOracle) : Catalog :=
  buildCatalogFrom clients
    (fanoutReplies clients.length upReply "tools/list")
    (fanoutReplies clients.length upReply "prompts/list")
    (fanoutReplies clients.length upReply "resources/list")

def buildCatalogSends (n : Nat) : List SendRec :=
  fanoutSends n "tools/list" ++ fanoutSends n "prompts/list" ++ fanoutSends n "resources/list"

/-- The `ok` result lists collected by `_aggregate_list`'s fan-out (lines
207-218 / 230-241): exceptions are skipped. -/
def collectLists (rs : List Reply) : List (List J) :=
  rs.filterMap (fun r =>
    match r with
    | Except.error _ => none
    | Except.ok d => some (getResultList d))

/-- `_aggregate_list` (lines 202-246): for `tools/list` in legacy mode,
re-fan-out and merge by original name; in config mode, the presented
descriptors from the just-rebuilt catalog; for `prompts/list` and
`resources/list`, fan-out and merge by name.  Returns the aggregated items and
the extra `send_request`s performed.  (The defensive catalog rebuild at lines
224-226 is dead when reached from `route_request`, which has just rebuilt the
catalog; the model takes the catalog as given.) -/
def aggregateList (legacy : Bool) (clients : List UpstreamServer) (cat : Catalog)
    (method : String) (upReply : UpOracle) : List J × List SendRec :=
  let n := clients.length
  if method == "tools/list" then
    if legacy then
      (mergeNamedLists (collectLists (fanoutReplies n upReply "tools/list")),
       fanoutSends n "tools/list")
    else
      (cat.tools.map (fun kv => kv.2.item), [])
  else
    (mergeNamedLists (collectLists (fanoutReplies n upReply method)),
     fanoutSends n method)

/-- Lines 94-96: a `tools/call` whose params are a dict with a string `name`. -/
def toolsCallName (method : String) (params : Option J) : Option (Dict J × String) :=
  if method == "tools/call" then
    match params with
    | some (J.obj fs) =>
      match dictGet fs "name" with
      | some (J.str nm) => some (fs, nm)
      | _ => none
    | _ => none
  else none

/-- The `for c in self._clients: ... break` loop (lines 103-111): index of the
first client whose upstream config name equals the routing target. -/
def findClientIdxFrom (target : String) : Nat → List UpstreamServer → Option Nat
  | _, [] => none
  | i, c :: rest => if c.name = target then some i else findClientIdxFrom target (i + 1) rest

def findClientIdx (clients : List UpstreamServer) (target : String) : Option Nat :=
  findClientIdxFrom target 0 clients

/-- Catalog lookup and client selection for `tools/call` (lines 97-111):
on a catalog hit whose owner is among the clients, route there with the
`name` rewritten back to the original; otherwise keep the round-robin choice
and the original params. -/
def chooseToolsCallTarget (clients : List UpstreamServer) (cat : Catalog)
    (fs : Dict J) (nm : String) (rrIdx : Nat) (params : Option J) : Nat × Option J :=
  match dictGet cat.tools nm with
  | some entry =>
    match findClientIdx clients entry.upstream with
    | some j => (j, some (J.obj (dictSet fs "name" (J.str entry.original_name))))
    | none => (rrIdx, params)
  | none => (rrIdx, params)

structure RouteOutcome where
  resp : RpcResponse
  sends : List SendRec
deriving Repr

/-- `AggregationController.route_request` (controller.py lines 63-117). -/
def routeRequest (st : ControllerState) (env : EnvFilters) (method : String)
    (params : Option J) (upReply : UpOracle) : RouteOutcome × ControllerState :=
  if st.clients.isEmpty then
    ({ resp := RpcResponse.error (errObj (-32000) "No upstreams available")
       sends := [] }, st)
  else
    match toolsCallFilter env method params with
    | some e => ({ resp := RpcResponse.error e, sends := [] }, st)
    | none =>
      let n := st.clients.length
      let rrIdx := st.rr % n
      let st1 : ControllerState := { st with rr := st.rr + 1 }
      if method == "tools/list" || method == "prompts/list" || method == "resources/list" then
        let cat := buildCatalogOracle st1.clients upReply
        let st2 : ControllerState := { st1 with catalog := some cat }
        let agg := aggregateList st2.legacy st2.clients cat method upReply
        ({ resp := RpcResponse.result (J.arr agg.1)
           sends := buildCatalogSends n ++ agg.2 }, st2)
      else
        match toolsCallName method params with
        | some fsnm =>
          match st1.catalog with
          | some cat =>
              let t := chooseToolsCallTarget st1.clients cat fsnm.1 fsnm.2 rrIdx params
              ({ resp := envelope (upReply t.1 method t.2)
                 sends := [⟨t.1, method, t.2⟩] }, st1)
          | none =>
              let cat := buildCatalogOracle st1.clients upReply
              let st2 : ControllerState := { st1 with catalog := some cat }
              let t := chooseToolsCallTarget st2.clients cat fsnm.1 fsnm.2 rrIdx params
              ({ resp := envelope (upReply t.1 method t.2)
                 sends := buildCatalogSends n ++ [⟨t.1, method, t.2⟩] }, st2)
        | none =>
            ({ resp := envelope (upReply rrIdx method params)
               sends := [⟨rrIdx, method, params⟩] }, st1)

/-- The string `name` field of a descriptor, if any. -/
def itemName (j : J) : Option String :=
  match j.get "name" with
  | some (J.str s) => some s
  | _ => none

/-- The `name` fields of the descriptors in a `result` list. -/
def respNames : RpcResponse → List String
  | RpcResponse.result (J.arr xs) => xs.filterMap itemName
  | _ => []

/-! ### Concrete scenario fixtures (S1/S2 of the spec) -/

def cfgU1 : UpstreamServer := ⟨"u1", ["u1-cmd"], [], none, none⟩

def cfgU2 : UpstreamServer := ⟨"u2", ["u2-cmd"], [], none, none⟩

/-- Upstream behaviour of S1: `u1` advertises tools `a`, `b`; `u2` advertises
`b`, `c`; prompts/resources are empty; `tools/call` succeeds with `{ok: true}`. -/
def upstreamS1 : UpOracle := fun i m _ =>
  if m = "tools/list" then
    if i = 0 then
      Except.ok [("result", J.arr [J.obj [("name", J.str "a")], J.obj [("name", J.str "b")]])]
    else
      Except.ok [("result", J.arr [J.obj [("name", J.str "b")], J.obj [("name", J.str "c")]])]
  else if m = "tools/call" then
    Except.ok [("result", J.obj [("ok", J.bool true)])]
  else
    Except.ok [("result", J.arr [])]

def envNone : EnvFilters := ⟨none, none⟩

/-- S1 controller in legacy (process-based) mode. -/
def stLegacyS1 : ControllerState := ⟨true, [cfgU1, cfgU2], 0, none⟩

/-- S1 controller in config (SDK) mode. -/
def stConfigS1 : ControllerState := ⟨false, [cfgU1, cfgU2], 0, none⟩

/-! ### Ordering and uniqueness of the presented catalog (for C1/C9) -/

/-- Spec-side comparison list (refinement target for S1): the presented-name
entries laid out flat, per upstream in configuration order and per tool in the
upstream's list order, with no collision handling. -/
def specPresentedEntries : List (UpstreamServer × Reply) → List (String × CatalogEntry)
  | [] => []
  | cr :: rest =>
    (match cr.2 with
     | Except.error _ => []
     | Except.ok r => (getResultList r).filterMap (toolEntry cr.1)) ++
    specPresentedEntries rest

theorem catalogAddTools_keys_nodup (cfg : UpstreamServer) (items : List J) :
    ∀ acc : Dict CatalogEntry, (dictKeys acc).Nodup →
      (dictKeys (catalogAddTools cfg items acc)).Nodup := by
  induction items with
  | nil => intro acc h; exact h
  | cons item rest ih =>
      intro acc h
      rw [catalogAddTools]
      cases he : toolEntry cfg item with
      | none => exact ih acc h
      | some kv => exact ih _ (dictKeys_dictSet_nodup _ _ _ h)

theorem buildToolsPairs_keys_nodup (pairs : List (UpstreamServer × Reply)) :
    ∀ acc : Dict CatalogEntry, (dictKeys acc).Nodup →
      (dictKeys (buildToolsPairs pairs acc)).Nodup := by
  induction pairs with
  | nil => intro acc h; exact h
  | cons cr rest ih =>
      intro acc h
      rw [buildToolsPairs]
      cases hr : cr.2 with
      | error e => exact ih acc h
      | ok r => exact ih _ (catalogAddTools_keys_nodup _ _ acc h)

/-- The presented names in the built catalog are pairwise distinct
(unconditionally: on a collision the dict overwrites in place). -/
theorem buildTools_keys_nodup (clients : List UpstreamServer) (replies : List Reply) :
    (dictKeys (buildTools clients replies)).Nodup :=
  buildToolsPairs_keys_nodup _ [] (by simp [dictKeys])

theorem catalogAddTools_append (cfg : UpstreamServer) (items : List J) :
    ∀ acc : Dict CatalogEntry,
      (dictKeys acc ++ (items.filterMap (toolEntry cfg)).map (·.1)).Nodup →
      catalogAddTools cfg items acc = acc ++ items.filterMap (toolEntry cfg) := by
  induction items with
  | nil => intro acc _; simp [catalogAddTools]
  | cons item rest ih =>
      intro acc h
      cases he : toolEntry cfg item with
      | none =>
          rw [List.filterMap_cons_none he] at h
          simp only [catalogAddTools, he, List.filterMap_cons_none he]
          exact ih acc h
      | some kv =>
          rw [List.filterMap_cons_some he] at h
          simp only [catalogAddTools, he, List.filterMap_cons_some he]
          have hfresh : kv.1 ∉ dictKeys acc := by
            intro hm
            simp only [List.map_cons] at h
            exact (List.nodup_append.mp h).2.2 hm (List.mem_cons_self _ _)
          have hset : dictSet acc kv.1 kv.2 = acc ++ [(kv.1, kv.2)] :=
            dictSet_fresh_append _ _ _ ((dictGet_eq_none_iff _ _).mpr hfresh)
          have hkeys : dictKeys (acc ++ [(kv.1, kv.2)]) = dictKeys acc ++ [kv.1] := by
            simp [dictKeys]
          rw [hset, ih (acc ++ [(kv.1, kv.2)])
            (by rw [hkeys, List.append_assoc]; simpa using h)]
          simp [List.append_assoc]

theorem buildToolsPairs_append (pairs : List (UpstreamServer × Reply)) :
    ∀ acc : Dict CatalogEntry,
      (dictKeys acc ++ (specPresentedEntries pairs).map (·.1)).Nodup →
      buildToolsPairs pairs acc = acc ++ specPresentedEntries pairs := by
  induction pairs with
  | nil => intro acc _; simp [buildToolsPairs, specPresentedEntries]
  | cons cr rest ih =>
      intro acc h
      cases hr : cr.2 with
      | error e =>
          rw [specPresentedEntries, hr] at h
          simp only [List.nil_append] at h
          simp only [buildToolsPairs, specPresentedEntries, hr, List.nil_append]
          exact ih acc h
      | ok r =>
          rw [specPresentedEntries, hr] at h
          simp only [List.map_append] at h
          simp only [buildToolsPairs, specPresentedEntries, hr]
          have hpre : (dictKeys acc ++
              (((getResultList r).filterMap (toolEntry cr.1)).map (·.1))).Nodup := by
            rw [← List.append_assoc] at h
            exact h.sublist (List.sublist_append_left _ _)
          have hkeys : dictKeys (acc ++ (getResultList r).filterMap (toolEntry cr.1))
              = dictKeys acc ++ ((getResultList r).filterMap (toolEntry cr.1)).map (·.1) := by
            simp [dictKeys]
          rw [catalogAddTools_append _ _ acc hpre,
            ih (acc ++ (getResultList r).filterMap (toolEntry cr.1))
              (by rw [hkeys, List.append_assoc]; exact h),
            List.append_assoc]

/-- When the presented names are collision-free, the built catalog is exactly
the flat per-upstream, per-list-order presented entries. -/
theorem buildTools_eq_spec (clients : List UpstreamServer) (replies : List Reply)
    (h : ((specPresentedEntries (clients.zip replies)).map (·.1)).Nodup) :
    buildTools clients replies = specPresentedEntries (clients.zip replies) :=
  buildToolsPairs_append _ [] (by simpa [dictKeys])

/-- The presented descriptor's `name` field is the presented name. -/
theorem presentItem_name (up : String) (fs : Dict J) (p : String) :
    (presentItem up fs p).get "name" = some (J.str p) := by
  rw [presentItem]
  cases hd : dictGet (dictSet fs "name" (J.str p)) "description" with
  | none => simp [J.get, dictGet_dictSet_self]
  | some d =>
      cases d with
      | str s =>
          by_cases hs : s = ""
          · simp [hs, J.get, dictGet_dictSet_self]
          · simp only [hs, if_false]
            rw [J.get]
            rw [dictGet_dictSet_ne _ _ _ _ (by decide)]
            exact dictGet_dictSet_self _ _ _
      | null => simp [J.get, dictGet_dictSet_self]
      | bool b => simp [J.get, dictGet_dictSet_self]
      | num n => simp [J.get, dictGet_dictSet_self]
      | arr es => simp [J.get, dictGet_dictSet_self]
      | obj fs2 => simp [J.get, dictGet_dictSet_self]

/-- Each catalog contribution satisfies the presented-name formula, and its
descriptor's `name` field equals the presented name. -/
theorem toolEntry_prop (cfg : UpstreamServer) (item : J) (kv : String × CatalogEntry)
    (h : toolEntry cfg item = some kv) :
    kv.1 = sanitize kv.2.upstream ++ "_" ++ sanitize kv.2.original_name ∧
    kv.2.item.get "name" = some (J.str kv.1) := by
  cases item with
  | obj fs =>
      rw [toolEntry] at h
      cases hn : dictGet fs "name" with
      | none => rw [hn] at h; exact absurd h (by simp)
      | some nv =>
          rw [hn] at h
          cases nv with
          | str orig =>
              by_cases hf : passesFilters cfg (sanitize orig) = true
              · simp only [hf, if_true] at h
                cases h
                exact ⟨rfl, presentItem_name _ _ _⟩
              · simp [hf] at h
          | null => exact absurd h (by simp)
          | bool b => exact absurd h (by simp)
          | num n => exact absurd h (by simp)
          | arr es => exact absurd h (by simp)
          | obj fs2 => exact absurd h (by simp)
  | null => exact absurd h (by simp [toolEntry])
  | bool b => exact absurd h (by simp [toolEntry])
  | num n => exact absurd h (by simp [toolEntry])
  | str s => exact absurd h (by simp [toolEntry])
  | arr es => exact absurd h (by simp [toolEntry])

theorem specPresentedEntries_prop (pairs : List (UpstreamServer × Reply)) :
    ∀ kv ∈ specPresentedEntries pairs,
      kv.1 = sanitize kv.2.upstream ++ "_" ++ sanitize kv.2.original_name ∧
      kv.2.item.get "name" = some (J.str kv.1) := by
  induction pairs with
  | nil => intro kv hm; simp [specPresentedEntries] at hm
  | cons cr rest ih =>
      intro kv hm
      rw [specPresentedEntries] at hm
      rcases List.mem_append.mp hm with hm | hm
      · cases hr : cr.2 with
        | error e => rw [hr] at hm; simp at hm
        | ok r =>
            rw [hr] at hm
            obtain ⟨item, _, he⟩ := List.mem_filterMap.mp hm
            obtain ⟨h1, h2⟩ := toolEntry_prop cr.1 item kv he
            exact ⟨h1, h2⟩
      · exact ih kv hm

/-- Extracting the `name` fields of the presented descriptors yields the
presented names, in order. -/
theorem filterMap_itemName_of_entries (entries : List (String × CatalogEntry))
    (h : ∀ kv ∈ entries, kv.2.item.get "name" = some (J.str kv.1)) :
    (entries.map (fun kv => kv.2.item)).filterMap itemName = entries.map (·.1) := by
  induction entries with
  | nil => rfl
  | cons kv rest ih =>
      have hkv := h kv (List.mem_cons_self _ _)
      simp only [List.map_cons]
      rw [List.filterMap_cons_some (by rw [itemName, hkv])]
      rw [ih (fun kv' hm => h kv' (List.mem_cons_of_mem _ hm))]

theorem isEmpty_false_of_ne_nil {α : Type} {l : List α} (h : l ≠ []) : l.isEmpty = false := by
  cases l with
  | nil => exact absurd rfl h
  | cons a t => rfl

/-- The (client, tools/list reply) pairs a discovery request fans out over. -/
def toolFanoutPairs (st : ControllerState) (upReply : UpOracle) :
    List (UpstreamServer × Reply) :=
  st.clients.zip (fanoutReplies st.clients.length upReply "tools/list")

/-- In config (SDK) mode, `tools/list` serves the rebuilt catalog's items. -/
theorem routeRequest_toolsList_config (st : ControllerState) (env : EnvFilters)
    (upReply : UpOracle) (hleg : st.legacy = false) (hne : st.clients ≠ []) :
    (routeRequest st env "tools/list" none upReply).1.resp
      = RpcResponse.result (J.arr ((buildTools st.clients
          (fanoutReplies st.clients.length upReply "tools/list")).map
            (fun kv => kv.2.item))) := by
  rw [routeRequest]
  have hfil : toolsCallFilter env "tools/list" none = none := rfl
  simp only [isEmpty_false_of_ne_nil hne, Bool.false_eq_true, if_false, hfil,
    aggregateList, buildCatalogOracle, buildCatalogFrom, hleg]
  simp

/-- C1 (counterexample): a controller constructed from upstream processes
(legacy mode, `_up_procs` non-empty; `test_discovery_merge.py` exercises this
path) serving S1 (`u1`: a, b; `u2`: b, c) returns the ORIGINAL names
`[a, b, c]` merged by uniqueness — not the prefixed
`[u1_a, u1_b, u2_b, u2_c]` the claim requires of every `tools/list`. -/
theorem C1_counterexample :
    respNames (routeRequest stLegacyS1 envNone "tools/list" none upstreamS1).1.resp
      = ["a", "b", "c"] ∧
    ¬ respNames (routeRequest stLegacyS1 envNone "tools/list" none upstreamS1).1.resp
      = ["u1_a", "u1_b", "u2_b", "u2_c"] := by
  have h : respNames (routeRequest stLegacyS1 envNone "tools/list" none upstreamS1).1.resp
      = ["a", "b", "c"] := rfl
  exact ⟨h, by rw [h]; decide⟩

/-- C1 (amended): when the controller is configured with upstream servers
(config/SDK mode) and the computed presented names are collision-free, every
`tools/list` returns exactly the presented descriptors, per upstream in
configuration order and per tool in the upstream's list order; each descriptor's
name equals `sanitize(upstream_id) + "_" + sanitize(original_name)`, and the
returned names are pairwise distinct.  (In legacy process mode the original
names are served unprefixed — see the counterexample.) -/
theorem C1_tools_list_presented (st : ControllerState) (env : EnvFilters)
    (upReply : UpOracle) (hleg : st.legacy = false) (hne : st.clients ≠ [])
    (hnodup : ((specPresentedEntries (toolFanoutPairs st upReply)).map (·.1)).Nodup) :
    (routeRequest st env "tools/list" none upReply).1.resp
      = RpcResponse.result (J.arr ((specPresentedEntries (toolFanoutPairs st upReply)).map
          (fun kv => kv.2.item))) ∧
    respNames (routeRequest st env "tools/list" none upReply).1.resp
      = (specPresentedEntries (toolFanoutPairs st upReply)).map (·.1) ∧
    (respNames (routeRequest st env "tools/list" none upReply).1.resp).Nodup ∧
    (∀ kv ∈ specPresentedEntries (toolFanoutPairs st upReply),
      kv.1 = sanitize kv.2.upstream ++ "_" ++ sanitize kv.2.original_name ∧
      kv.2.item.get "name" = some (J.str kv.1)) := by
  have hb : buildTools st.clients (fanoutReplies st.clients.length upReply "tools/list")
      = specPresentedEntries (toolFanoutPairs st upReply) :=
    buildTools_eq_spec _ _ hnodup
  have h1 : (routeRequest st env "tools/list" none upReply).1.resp
      = RpcResponse.result (J.arr ((specPresentedEntries (toolFanoutPairs st upReply)).map
          (fun kv => kv.2.item))) := by
    rw [routeRequest_toolsList_config st env upReply hleg hne, hb]
  have hprop := specPresentedEntries_prop (toolFanoutPairs st upReply)
  have h2 : respNames (routeRequest st env "tools/list" none upReply).1.resp
      = (specPresentedEntries (toolFanoutPairs st upReply)).map (·.1) := by
    rw [h1, respNames]
    exact filterMap_itemName_of_entries _ (fun kv hm => (hprop kv hm).2)
  exact ⟨h1, h2, by rw [h2]; exact hnodup, hprop⟩

/-- Witness for C1 (amended): in scenario S1 (config mode) the served names
are exactly `[u1_a, u1_b, u2_b, u2_c]`. -/
theorem C1_tools_list_presented_witness :
    respNames (routeRequest stConfigS1 envNone "tools/list" none upstreamS1).1.resp
      = ["u1_a", "u1_b", "u2_b", "u2_c"] := by
  have h := C1_tools_list_presented stConfigS1 envNone upstreamS1 rfl
    (List.cons_ne_nil _ _) (by decide)
  rw [h.2.1]
  decide

theorem findClientIdxFrom_spec (target : String) :
    ∀ (clients : List UpstreamServer) (i j : Nat),
      findClientIdxFrom target i clients = some j →
      i ≤ j ∧ ∃ cfg, clients[j - i]? = some cfg ∧ cfg.name = target := by
  intro clients
  induction clients with
  | nil => intro i j h; simp [findClientIdxFrom] at h
  | cons c rest ih =>
      intro i j h
      rw [findClientIdxFrom] at h
      by_cases hc : c.name = target
      · rw [if_pos hc] at h
        cases h
        exact ⟨le_refl _, c, by simp, hc⟩
      · rw [if_neg hc] at h
        obtain ⟨hle, cfg, hget, hname⟩ := ih (i + 1) j h
        refine ⟨by omega, cfg, ?_, hname⟩
        have hj : j - i = (j - (i + 1)) + 1 := by omega
        rw [hj]
        simpa using hget

/-- The routing loop selects a client whose config name is the target. -/
theorem findClientIdx_spec (clients : List UpstreamServer) (target : String) (j : Nat)
    (h : findClientIdx clients target = some j) :
    ∃ cfg, clients[j]? = some cfg ∧ cfg.name = target := by
  obtain ⟨_, cfg, hget, hname⟩ := findClientIdxFrom_spec target clients 0 j h
  exact ⟨cfg, by simpa using hget, hname⟩

/-- C2 (confirmed): a `tools/call` for a catalog-known presented name (passing
the global filters) is forwarded exactly once, to the first client whose
upstream id is the catalog owner of the name, with `params.name` rewritten to
the original name; the reply envelope of that upstream is returned verbatim
(its `error` member, or its `result` member). -/
theorem C2_catalog_routing (st : ControllerState) (env : EnvFilters) (fs : Dict J)
    (nm : String) (entry : CatalogEntry) (cat : Catalog) (j : Nat) (upReply : UpOracle)
    (hne : st.clients ≠ [])
    (hfilter : toolsCallFilter env "tools/call" (some (J.obj fs)) = none)
    (hcat : st.catalog = some cat)
    (hnm : dictGet fs "name" = some (J.str nm))
    (hentry : dictGet cat.tools nm = some entry)
    (hfind : findClientIdx st.clients entry.upstream = some j) :
    (routeRequest st env "tools/call" (some (J.obj fs)) upReply).1.sends
      = [⟨j, "tools/call", some (J.obj (dictSet fs "name" (J.str entry.original_name)))⟩] ∧
    (routeRequest st env "tools/call" (some (J.obj fs)) upReply).1.resp
      = envelope (upReply j "tools/call"
          (some (J.obj (dictSet fs "name" (J.str entry.original_name))))) ∧
    ∃ cfg, st.clients[j]? = some cfg ∧ cfg.name = entry.upstream := by
  have hname : toolsCallName "tools/call" (some (J.obj fs)) = some (fs, nm) := by
    rw [toolsCallName, hnm]; rfl
  have hchoose : chooseToolsCallTarget st.clients cat fs nm (st.rr % st.clients.length)
      (some (J.obj fs)) = (j, some (J.obj (dictSet fs "name" (J.str entry.original_name)))) := by
    simp only [chooseToolsCallTarget, hentry, hfind]
  have hdisc : (("tools/call" == "tools/list") || ("tools/call" == "prompts/list")
      || ("tools/call" == "resources/list")) = false := rfl
  refine ⟨?_, ?_, findClientIdx_spec _ _ _ hfind⟩ <;>
    (rw [routeRequest]
     simp only [isEmpty_false_of_ne_nil hne, Bool.false_eq_true, if_false, hfilter, hname,
       hcat, hchoose, hdisc])

/-- The catalog built in scenario S1. -/
def catS1 : Catalog := buildCatalogOracle [cfgU1, cfgU2] upstreamS1

/-- The controller state after S1 (config mode, catalog built). -/
def stS2 : ControllerState := ⟨false, [cfgU1, cfgU2], 0, some catS1⟩

/-- Witness for C2, scenario S2: `tools/call u2_b` goes only to client 1
(upstream `u2`), with `name` rewritten to `b`. -/
theorem C2_catalog_routing_witness :
    (routeRequest stS2 envNone "tools/call"
        (some (J.obj [("name", J.str "u2_b"), ("arguments", J.obj [])])) upstreamS1).1.sends
      = [⟨1, "tools/call", some (J.obj [("name", J.str "b"), ("arguments", J.obj [])])⟩] :=
  (C2_catalog_routing stS2 envNone [("name", J.str "u2_b"), ("arguments", J.obj [])]
    "u2_b" ⟨J.obj [("name", J.str "u2_b")], "u2", "b"⟩ catS1 1 upstreamS1
    (List.cons_ne_nil _ _) rfl rfl rfl rfl rfl).1

/-- C7 (confirmed): a `tools/call` whose presented name is missing from a set
`ORCH_INCLUDE_TOOLS` list is answered `-32601 "Tool not allowed: <name>"`, and
one whose presented name appears in `ORCH_EXCLUDE_TOOLS` (and passes the
include list, when set) is answered `-32601 "Tool excluded: <name>"` — in both
cases before any request is sent to any upstream session (`sends = []`). -/
theorem C7_env_filters :
    (∀ (st : ControllerState) (env : EnvFilters) (fs : Dict J) (nm : String)
        (upReply : UpOracle),
      st.clients ≠ [] →
      dictGet fs "name" = some (J.str nm) →
      truthyEnv env.includeTools = true →
      (splitComma (env.includeTools.getD "")).contains nm = false →
      (routeRequest st env "tools/call" (some (J.obj fs)) upReply).1
        = { resp := RpcResponse.error (errObj (-32601) ("Tool not allowed: " ++ nm))
            sends := [] }) ∧
    (∀ (st : ControllerState) (env : EnvFilters) (fs : Dict J) (nm : String)
        (upReply : UpOracle),
      st.clients ≠ [] →
      dictGet fs "name" = some (J.str nm) →
      (truthyEnv env.includeTools = false ∨
        (splitComma (env.includeTools.getD "")).contains nm = true) →
      truthyEnv env.excludeTools = true →
      (splitComma (env.excludeTools.getD "")).contains nm = true →
      (routeRequest st env "tools/call" (some (J.obj fs)) upReply).1
        = { resp := RpcResponse.error (errObj (-32601) ("Tool excluded: " ++ nm))
            sends := [] }) := by
  constructor
  · intro st env fs nm upReply hne hname hinc hmem
    have hfil : toolsCallFilter env "tools/call" (some (J.obj fs))
        = some (errObj (-32601) ("Tool not allowed: " ++ nm)) := by
      rw [toolsCallFilter]
      simp only [hinc, hname, hmem, Bool.true_and, Bool.true_or, Bool.not_false, if_true]
      rfl
    rw [routeRequest]
    simp only [isEmpty_false_of_ne_nil hne, Bool.false_eq_true, if_false, hfil]
  · intro st env fs nm upReply hne hname hor hexc hmem
    have hfil : toolsCallFilter env "tools/call" (some (J.obj fs))
        = some (errObj (-32601) ("Tool excluded: " ++ nm)) := by
      rw [toolsCallFilter]
      rcases hor with hor | hor
      · simp only [hor, hexc, hname, hmem, Bool.false_and, Bool.or_true, Bool.true_and,
          Bool.false_eq_true, if_false, if_true]
        rfl
      · simp only [hor, hexc, hname, hmem, Bool.not_true, Bool.and_false, Bool.true_and,
          Bool.or_true, Bool.false_eq_true, if_false, if_true]
        rfl
    rw [routeRequest]
    simp only [isEmpty_false_of_ne_nil hne, Bool.false_eq_true, if_false, hfil]

/-- Witness for C7: S4 (`ORCH_EXCLUDE_TOOLS="u2_c"`, call of `u2_c` is
excluded without contacting any upstream) and the include-list variant. -/
theorem C7_env_filters_witness :
    (routeRequest stLegacyS1 ⟨some "u1_a", none⟩ "tools/call"
        (some (J.obj [("name", J.str "u2_c")])) upstreamS1).1
      = { resp := RpcResponse.error (errObj (-32601) "Tool not allowed: u2_c")
          sends := [] } ∧
    (routeRequest stLegacyS1 ⟨none, some "u2_c"⟩ "tools/call"
        (some (J.obj [("name", J.str "u2_c")])) upstreamS1).1
      = { resp := RpcResponse.error (errObj (-32601) "Tool excluded: u2_c")
          sends := [] } :=
  ⟨C7_env_filters.1 stLegacyS1 ⟨some "u1_a", none⟩ [("name", J.str "u2_c")] "u2_c"
      upstreamS1 (List.cons_ne_nil _ _) rfl rfl (by decide),
   C7_env_filters.2 stLegacyS1 ⟨none, some "u2_c"⟩ [("name", J.str "u2_c")] "u2_c"
      upstreamS1 (List.cons_ne_nil _ _) rfl (Or.inl rfl) rfl (by decide)⟩

/-- C9 (confirmed): `sanitize` is idempotent, and presented-name construction
is a pure function of the configuration order and the upstream tool lists —
equal inputs give equal catalogs (hence equal presented names in equal order). -/
theorem C9_sanitize_deterministic :
    (∀ s : String, sanitize (sanitize s) = sanitize s) ∧
    (∀ (c c' : List UpstreamServer) (r r' : List Reply),
      c = c' → r = r' → buildTools c r = buildTools c' r') := by
  constructor
  · intro s
    have hrepl : ∀ ch : Char, replChar (replChar ch) = replChar ch := by
      intro ch
      by_cases h : ch = '-'
      · subst h; rfl
      · simp [replChar, h]
    show String.mk ((s.data.map replChar).map replChar) = String.mk (s.data.map replChar)
    rw [List.map_map]
    exact congrArg String.mk (congrArg (fun f => s.data.map f) (funext hrepl))
  · intro c c' r r' hc hr
    rw [hc, hr]

/-- Witness for C9 at a concrete name and catalog build. -/
theorem C9_sanitize_deterministic_witness :
    sanitize (sanitize "my-up_stream") = sanitize "my-up_stream" ∧
    buildTools [cfgU1, cfgU2] (fanoutReplies 2 upstreamS1 "tools/list")
      = buildTools [cfgU1, cfgU2] (fanoutReplies 2 upstreamS1 "tools/list") :=
  ⟨C9_sanitize_deterministic.1 "my-up_stream",
   C9_sanitize_deterministic.2 _ _ _ _ rfl rfl⟩

/-- C10 (confirmed): `route_request` always returns a dict carrying exactly
one of the keys `result`/`error` (given that session start does not raise —
the model's premise), and a raising upstream `send_request` on the generic
routing path is converted into a `-32001 "Upstream request failed: ..."`
error envelope. -/
theorem C10_route_total :
    (∀ (st : ControllerState) (env : EnvFilters) (method : String) (params : Option J)
        (upReply : UpOracle),
      (hasKey (responseDict (routeRequest st env method params upReply).1.resp) "result" = true ∧
       hasKey (responseDict (routeRequest st env method params upReply).1.resp) "error" = false) ∨
      (hasKey (responseDict (routeRequest st env method params upReply).1.resp) "result" = false ∧
       hasKey (responseDict (routeRequest st env method params upReply).1.resp) "error" = true)) ∧
    (∀ (st : ControllerState) (env : EnvFilters) (m : String) (params : Option J)
        (upReply : UpOracle) (emsg : String),
      st.clients ≠ [] →
      m ≠ "tools/list" → m ≠ "prompts/list" → m ≠ "resources/list" → m ≠ "tools/call" →
      upReply (st.rr % st.clients.length) m params = Except.error emsg →
      (routeRequest st env m params upReply).1.resp
        = RpcResponse.error (errObj (-32001) ("Upstream request failed: " ++ emsg))) := by
  constructor
  · intro st env method params upReply
    cases hr : (routeRequest st env method params upReply).1.resp with
    | result j => exact Or.inl ⟨rfl, rfl⟩
    | error e => exact Or.inr ⟨rfl, rfl⟩
  · intro st env m params upReply emsg hne h1 h2 h3 h4 hrep
    have d1 : (m == "tools/list") = false := beq_eq_false_iff_ne.mpr h1
    have d2 : (m == "prompts/list") = false := beq_eq_false_iff_ne.mpr h2
    have d3 : (m == "resources/list") = false := beq_eq_false_iff_ne.mpr h3
    have d4 : (m == "tools/call") = false := beq_eq_false_iff_ne.mpr h4
    have hfil : toolsCallFilter env m params = none := by
      delta toolsCallFilter
      rw [d4, Bool.false_and]
      rfl
    have hnamecall : toolsCallName m params = none := by
      delta toolsCallName
      rw [d4]
      rfl
    rw [routeRequest]
    simp only [isEmpty_false_of_ne_nil hne, Bool.false_eq_true, if_false, hfil, d1, d2, d3,
      Bool.or_self, Bool.false_or, hnamecall]
    rw [hrep]
    rfl

/-- Witness for C10 at a concrete failing upstream call: the response dict has
exactly one of the keys, and the raised send is converted into `-32001`. -/
theorem C10_route_total_witness :
    ((hasKey (responseDict (routeRequest stLegacyS1 envNone "ping" none
        (fun _ _ _ => Except.error "boom")).1.resp) "result" = true ∧
      hasKey (responseDict (routeRequest stLegacyS1 envNone "ping" none
        (fun _ _ _ => Except.error "boom")).1.resp) "error" = false) ∨
     (hasKey (responseDict (routeRequest stLegacyS1 envNone "ping" none
        (fun _ _ _ => Except.error "boom")).1.resp) "result" = false ∧
      hasKey (responseDict (routeRequest stLegacyS1 envNone "ping" none
        (fun _ _ _ => Except.error "boom")).1.resp) "error" = true)) ∧
    (routeRequest stLegacyS1 envNone "ping" none
        (fun _ _ _ => Except.error "boom")).1.resp
      = RpcResponse.error (errObj (-32001) "Upstream request failed: boom") :=
  ⟨C10_route_total.1 stLegacyS1 envNone "ping" none (fun _ _ _ => Except.error "boom"),
   C10_route_total.2 stLegacyS1 envNone "ping" none (fun _ _ _ => Except.error "boom")
     "boom" (List.cons_ne_nil _ _) (by decide) (by decide) (by decide) (by decide) rfl⟩
